import Mathlib

/-!
Verification of the go-challange product-catalog service.

Shallow embedding of the validation + mapping layer of the repository:
the domain models (`models/category.go`, `models/variants.go`, the product
model), the catalog and categories services
(`app/services/catalog_service.go`, `app/services/categories_service.go`),
the products repository (`GetAllProducts` / `GetProductByCode`), the HTTP
error mapper (`app/api/errors.go`) and the query-parameter validation in
the catalog and categories handlers.

Prices are exact decimals (shopspring decimal) in the source; they are
modelled as rationals `ℚ`.  The `InexactFloat64` conversion done at the
DTO boundary is modelled as the identity on the exact value, since every
price on both sides of each compared equation passes through the same
conversion.  Machine `int` is modelled as `Int`; `strconv.Atoi` keeps its
64-bit range check because it is observable as a parse error.
-/

namespace GoCatalog

/-- Embeds `models.Category` (`models/category.go`): unique code and name. -/
structure Category where
  id : Nat
  code : String
  name : String
deriving DecidableEq, Repr

/-- Embeds `models.Variant` (`models/variants.go`): optional price; `none`
models the SQL NULL / Go `nil` pointer (inherit the product price), `some q`
an explicit price, including an explicit zero. -/
structure Variant where
  id : Nat
  productId : Nat
  name : String
  sku : String
  price : Option ℚ
deriving DecidableEq, Repr

/-- Embeds `models.Product`: code, required price, optional category,
list of variants. -/
structure Product where
  id : Nat
  code : String
  price : ℚ
  category : Option Category
  variants : List Variant
deriving DecidableEq, Repr

/-- Embeds the Go error values that reach the HTTP error mapper: the
sentinel errors of `app/services/errors.go`, `gorm.ErrRecordNotFound`, and
`other msg` for every unclassified error (`errors.New(msg)` etc.).
`errors.Is` on these distinct sentinels is constructor equality. -/
inductive GoError where
  | invalidOffset
  | invalidLimit
  | invalidPrice
  | negativePrice
  | invalidCategoryInput
  | invalidInput
  | notFound
  | gormRecordNotFound
  | other (msg : String)
deriving DecidableEq, Repr

/-- The `Error()` string of each modelled error value, from the
`errors.New` literals in `app/services/errors.go` and gorm. -/
def errMessage : GoError → String
  | .invalidOffset => "offset must be a non-negative integer"
  | .invalidLimit => "limit must be a positive integer"
  | .invalidPrice => "priceLessThan must be a valid decimal number"
  | .negativePrice => "priceLessThan must be a non-negative value"
  | .invalidCategoryInput => "category code and name are required"
  | .invalidInput => "invalid input"
  | .notFound => "resource not found"
  | .gormRecordNotFound => "record not found"
  | .other msg => msg

/-- Embeds `api.ErrorResponseBody` (`app/api/errors.go`): the fixed
`{code, message}` JSON error shape. -/
structure ErrorResponseBody where
  code : String
  message : String
deriving DecidableEq, Repr

/-- Embeds `api.HandleError` (`app/api/errors.go`): the switch over
`errors.Is` cases, returning the HTTP status and the response body.
The cases are mutually exclusive sentinels, so the switch is a match. -/
def HandleError (err : GoError) : Nat × ErrorResponseBody :=
  match err with
  | .invalidOffset => (400, ⟨"invalid_input", errMessage .invalidOffset⟩)
  | .invalidLimit => (400, ⟨"invalid_input", errMessage .invalidLimit⟩)
  | .invalidPrice => (400, ⟨"invalid_input", errMessage .invalidPrice⟩)
  | .negativePrice => (400, ⟨"invalid_input", errMessage .negativePrice⟩)
  | .invalidCategoryInput => (400, ⟨"invalid_input", errMessage .invalidCategoryInput⟩)
  | .invalidInput => (400, ⟨"invalid_input", "Invalid input provided"⟩)
  | .notFound => (404, ⟨"not_found", "Resource not found"⟩)
  | .gormRecordNotFound => (404, ⟨"not_found", "Resource not found"⟩)
  | .other _ => (500, ⟨"internal_error", "An internal error occurred"⟩)

/-- Embeds `services.PaginationParams`. -/
structure PaginationParams where
  offset : Int
  limit : Int
deriving DecidableEq, Repr

/-- Embeds `clamp` (`app/services/catalog_service.go`). -/
def clamp (value lo hi : Int) : Int :=
  if value < lo then lo
  else if value > hi then hi
  else value

/-- Embeds `CatalogService.ValidatePagination`
(`app/services/catalog_service.go`): offset passes through, limit defaults
to 10 and is clamped to [1,100] when explicitly provided. -/
def ValidatePagination (offset limit : Int) (limitProvided : Bool) : PaginationParams :=
  let params : PaginationParams := { offset := offset, limit := 10 }
  if limitProvided then { params with limit := clamp limit 1 100 } else params

/-- Embeds `models.ProductFilter` (products repository). -/
structure ProductFilter where
  category : String
  priceLessThan : Option ℚ
deriving DecidableEq, Repr

/-- Embeds `ProductsRepository.applyFilters`: the category filter joins on
`categories.id = products.category_id` and demands exact (case-sensitive)
code equality — so a product with no category never matches a non-empty
category filter — and the price filter is a strict `products.price < ?`.
Both filters compose conjunctively. -/
def matchesFilter (f : ProductFilter) (p : Product) : Bool :=
  (f.category == "" ||
    (match p.category with
     | some c => c.code == f.category
     | none => false))
  &&
  (match f.priceLessThan with
   | none => true
   | some d => decide (p.price < d))

/-- Insertion step for the `ORDER BY products.id ASC` ordering. -/
def insertByID (p : Product) : List Product → List Product
  | [] => [p]
  | q :: qs => if p.id ≤ q.id then p :: q :: qs else q :: insertByID p qs

/-- The `ORDER BY products.id ASC` ordering of the repository query,
as an insertion sort on the id key. -/
def sortByID (l : List Product) : List Product :=
  l.foldr insertByID []

/-- Embeds `ProductsRepository.GetAllProducts` over an in-memory table
`db` standing for the products relation: `Count` on the filtered base
query gives the total; the page is the filtered rows ordered by id with
`OFFSET`/`LIMIT` applied.  gorm treats a negative offset or limit as "no
offset"/"no limit" (`Int.toNat` sends a negative offset to 0, which is the
same thing); `LIMIT 0` returns no rows. -/
def GetAllProducts (db : List Product) (offset limit : Int) (f : ProductFilter) :
    List Product × Int :=
  let filtered := db.filter (matchesFilter f)
  let total : Int := filtered.length
  let afterOffset := (sortByID filtered).drop offset.toNat
  let page := if limit < 0 then afterOffset else afterOffset.take limit.toNat
  (page, total)

/-- Embeds `services.CategoryDTO`. -/
structure CategoryDTO where
  code : String
  name : String
deriving DecidableEq, Repr

/-- Embeds `services.ProductDTO` (list view: no variants). -/
structure ProductDTO where
  code : String
  price : ℚ
  category : Option CategoryDTO
deriving DecidableEq, Repr

/-- Embeds `services.VariantDTO`. -/
structure VariantDTO where
  name : String
  sku : String
  price : ℚ
deriving DecidableEq, Repr

/-- Embeds `services.ProductDetailDTO`. -/
structure ProductDetailDTO where
  code : String
  price : ℚ
  category : Option CategoryDTO
  variants : List VariantDTO
deriving DecidableEq, Repr

/-- Embeds `services.ProductListResult`. -/
structure ProductListResult where
  products : List ProductDTO
  total : Int
deriving DecidableEq, Repr

/-- Embeds `services.FilterParams`. -/
structure FilterParams where
  category : String
  priceLessThan : Option ℚ
deriving DecidableEq, Repr

/-- Embeds `mapProductToDTO` (`app/services/catalog_service.go`). -/
def mapProductToDTO (p : Product) : ProductDTO :=
  { code := p.code
    price := p.price
    category := p.category.map (fun c => ⟨c.code, c.name⟩) }

/-- Embeds `mapProductToDetailDTO` (`app/services/catalog_service.go`):
each variant's DTO price starts from the product price and is overwritten
by the variant's own price exactly when that pointer is non-nil. -/
def mapProductToDetailDTO (p : Product) : ProductDetailDTO :=
  { code := p.code
    price := p.price
    category := p.category.map (fun c => ⟨c.code, c.name⟩)
    variants := p.variants.map (fun v =>
      { name := v.name
        sku := v.sku
        price := match v.price with
          | none => p.price
          | some q => q }) }

/-- Embeds `CatalogService.ListProducts`: copies `FilterParams` into the
repository filter (the `!= nil` guard copies the same pointer, hence a
plain copy), calls `GetAllProducts`, maps rows to DTOs and passes the
total through unchanged.  The in-memory `db` plays the repository. -/
def ListProducts (db : List Product) (params : PaginationParams) (filter : FilterParams) :
    ProductListResult :=
  let repoFilter : ProductFilter := ⟨filter.category, filter.priceLessThan⟩
  let r := GetAllProducts db params.offset params.limit repoFilter
  { products := r.1.map mapProductToDTO, total := r.2 }

/-- Embeds `CatalogService.GetProductByCode`
(`app/services/catalog_service.go`): empty code short-circuits to
`ErrInvalidInput` before the repository is consulted; a repository
`gorm.ErrRecordNotFound` becomes `ErrNotFound`; any other repository error
is returned as-is.  `repo` is the `ProductRepository.GetProductByCode`
collaborator. -/
def GetProductByCode (repo : String → Except GoError Product) (code : String) :
    Except GoError ProductDetailDTO :=
  if code = "" then .error .invalidInput
  else
    match repo code with
    | .error e => if e = .gormRecordNotFound then .error .notFound else .error e
    | .ok p => .ok (mapProductToDetailDTO p)

/-- Embeds `services.CreateCategoryInput`. -/
structure CreateCategoryInput where
  code : String
  name : String
deriving DecidableEq, Repr

/-- Embeds `CategoriesService.CreateCategory`
(`app/services/categories_service.go`): exact empty-string checks on code
and name (no trimming), then the store call, whose created category is
copied into the returned `CategoryDTO`. -/
def CreateCategory (repo : String → String → Except GoError Category)
    (input : CreateCategoryInput) : Except GoError CategoryDTO :=
  if input.code = "" || input.name = "" then .error .invalidCategoryInput
  else
    match repo input.code input.name with
    | .error e => .error e
    | .ok c => .ok ⟨c.code, c.name⟩

/-- Accumulator for a base-10 digit run; fails on the first non-digit. -/
def parseDigitsAux : List Char → Nat → Option Nat
  | [], acc => some acc
  | c :: cs, acc =>
      if c.isDigit then parseDigitsAux cs (10 * acc + (c.toNat - 48)) else none

/-- A non-empty run of ASCII digits, as a natural number; `none` on the
empty list or any non-digit character. -/
def parseDigits : List Char → Option Nat
  | [] => none
  | cs => parseDigitsAux cs 0

/-- Models Go base-10 integer text (`big.Int.SetString(s, 10)` and the
digits-and-sign part of `strconv.ParseInt`): an optional leading `+`/`-`
followed by a non-empty digit run; anything else fails. -/
def setStringInt : List Char → Option Int
  | '+' :: ds => (parseDigits ds).map (fun n => (n : Int))
  | '-' :: ds => (parseDigits ds).map (fun n => -(n : Int))
  | ds => (parseDigits ds).map (fun n => (n : Int))

/-- `math.MinInt64`. -/
def int64Min : Int := -9223372036854775808

/-- `math.MaxInt64`. -/
def int64Max : Int := 9223372036854775807

/-- Models `strconv.Atoi`: sign and digits as in `setStringInt`, plus the
64-bit range check (out-of-range input returns `ErrRange`, which callers
observe as a parse failure). -/
def Atoi (s : String) : Option Int :=
  match setStringInt s.toList with
  | none => none
  | some v => if v < int64Min ∨ v > int64Max then none else some v

/-- Splits at the first decimal point, failing when a second point occurs
after it; `none` also when no point occurs (distinguished by the caller). -/
def splitAtDot : List Char → Option (List Char × List Char)
  | [] => none
  | '.' :: rest => if rest.contains '.' then none else some ([], rest)
  | c :: rest => (splitAtDot rest).map (fun pr => (c :: pr.1, pr.2))

/-- Models the decimal-point normalization of shopspring
`decimal.NewFromString`: more than one point or a trailing point is an
error; otherwise the digits are concatenated and the number of fractional
digits recorded. -/
def dotNormalize (cs : List Char) : Option (List Char × Nat) :=
  if cs.contains '.' then
    match splitAtDot cs with
    | none => none
    | some (intPart, fracPart) =>
        if fracPart = [] then none
        else some (intPart ++ fracPart, fracPart.length)
  else some (cs, 0)

/-- Splits at the first `e`/`E` exponent marker; `none` when absent. -/
def splitExp : List Char → Option (List Char × List Char)
  | [] => none
  | c :: rest =>
      if c = 'e' ∨ c = 'E' then some ([], rest)
      else (splitExp rest).map (fun pr => (c :: pr.1, pr.2))

/-- Models shopspring `decimal.NewFromString`: optional sign, digits with
at most one interior decimal point, optional `e`/`E` exponent whose part
is itself sign-plus-digits.  The (never reached in this API) exponent
magnitude limits are not modelled.  Returns the exact rational value. -/
def NewFromString (s : String) : Option ℚ :=
  let cs := s.toList
  match splitExp cs with
  | none =>
      match dotNormalize cs with
      | none => none
      | some (intString, fracLen) =>
          (setStringInt intString).map (fun n => (n : ℚ) / (10 : ℚ) ^ fracLen)
  | some (base, expPart) =>
      match setStringInt expPart, dotNormalize base with
      | some e, some (intString, fracLen) =>
          (setStringInt intString).map
            (fun n => (n : ℚ) / (10 : ℚ) ^ fracLen * (10 : ℚ) ^ e)
      | _, _ => none

/-- Embeds `parseQueryIntWithValidation` (catalog handler): empty string
is 0, otherwise `strconv.Atoi`. -/
def parseQueryIntWithValidation (s : String) : Option Int :=
  if s = "" then some 0 else Atoi s

/-- Embeds `parseQueryIntWithFlagAndValidation` (catalog handler): empty
string is `(0, provided := false)`, otherwise `strconv.Atoi` with
`provided := true`. -/
def parseQueryIntWithFlagAndValidation (s : String) : Option (Int × Bool) :=
  if s = "" then some (0, false)
  else (Atoi s).map (fun v => (v, true))

/-- Embeds the offset handling of `CatalogHandler.HandleGet`
(`parseQueryIntWithValidation` failure or a negative parsed value yield
`ErrInvalidOffset`). -/
def validateOffset (raw : String) : Except GoError Int :=
  match parseQueryIntWithValidation raw with
  | none => .error .invalidOffset
  | some v => if v < 0 then .error .invalidOffset else .ok v

/-- Embeds the `priceLessThan` handling of `CatalogHandler.HandleGet`:
empty string means no filter; `decimal.NewFromString` failure yields
`ErrInvalidPrice`; `IsNegative()` (sign < 0) yields `ErrNegativePrice`;
otherwise the parsed decimal becomes the filter value. -/
def validatePriceFilter (raw : String) : Except GoError (Option ℚ) :=
  if raw = "" then .ok none
  else
    match NewFromString raw with
    | none => .error .invalidPrice
    | some d => if d < 0 then .error .negativePrice else .ok (some d)

/-- Embeds `categories.CreateCategoryRequest` (POST body shape). -/
structure CreateCategoryRequest where
  code : String
  name : String
deriving DecidableEq, Repr

/-- Embeds `categories.CategoryResponse`. -/
structure CategoryResponse where
  code : String
  name : String
deriving DecidableEq, Repr

/-- Embeds `CategoriesHandler.HandlePost` (`app/categories/handler.go`).
`decodedBody` is the outcome of `json.Decoder.Decode` on the request
body: `none` when the body is not valid JSON for the
`CreateCategoryRequest` shape (the decoder returned an error), `some req`
otherwise.  A decode failure returns `services.ErrInvalidInput` before the
service collaborator `svc` is ever consulted. -/
def HandlePost (svc : CreateCategoryInput → Except GoError CategoryDTO)
    (decodedBody : Option CreateCategoryRequest) : Except GoError CategoryResponse :=
  match decodedBody with
  | none => .error .invalidInput
  | some req =>
      match svc ⟨req.code, req.name⟩ with
      | .error e => .error e
      | .ok c => .ok ⟨c.code, c.name⟩

/-! ## Theorems -/

/-- C2: `HandleError` maps every error value to the fixed `{code, message}`
shape with exactly the status, code and message of the spec table: the six
validation kinds to 400 `invalid_input` with their stated messages,
`NotFound` to 404 `not_found` "Resource not found", and every unclassified
error — any error not matched by a case of the mapper, modelled by
`GoError.other` — to 500 `internal_error` "An internal error occurred". -/
theorem handle_error_matches_spec_table :
    HandleError .invalidOffset
      = (400, ⟨"invalid_input", "offset must be a non-negative integer"⟩)
    ∧ HandleError .invalidLimit
      = (400, ⟨"invalid_input", "limit must be a positive integer"⟩)
    ∧ HandleError .invalidPrice
      = (400, ⟨"invalid_input", "priceLessThan must be a valid decimal number"⟩)
    ∧ HandleError .negativePrice
      = (400, ⟨"invalid_input", "priceLessThan must be a non-negative value"⟩)
    ∧ HandleError .invalidCategoryInput
      = (400, ⟨"invalid_input", "category code and name are required"⟩)
    ∧ HandleError .invalidInput
      = (400, ⟨"invalid_input", "Invalid input provided"⟩)
    ∧ HandleError .notFound
      = (404, ⟨"not_found", "Resource not found"⟩)
    ∧ ∀ msg : String, HandleError (.other msg)
      = (500, ⟨"internal_error", "An internal error occurred"⟩) :=
  ⟨rfl, rfl, rfl, rfl, rfl, rfl, rfl, fun _ => rfl⟩

/-- C9: a raw `gorm.ErrRecordNotFound` reaching `HandleError` directly,
without having been translated to the domain `ErrNotFound`, is mapped to
404 `not_found` "Resource not found" and does not take the 500
unclassified path. -/
theorem gorm_record_not_found_maps_to_404 :
    HandleError .gormRecordNotFound = (404, ⟨"not_found", "Resource not found"⟩)
    ∧ (HandleError .gormRecordNotFound).1 ≠ 500 :=
  ⟨rfl, by decide⟩

/-- C10: when the POST /categories body fails to decode as the
`{code, name}` shape, `HandlePost` returns the generic `ErrInvalidInput`
regardless of the service collaborator (so the service is never
consulted), and `HandleError` turns that error into 400 `invalid_input`
"Invalid input provided" — never a 500. -/
theorem handle_post_invalid_json
    (svc : CreateCategoryInput → Except GoError CategoryDTO) :
    HandlePost svc none = .error .invalidInput
    ∧ (∀ svc2 : CreateCategoryInput → Except GoError CategoryDTO,
        HandlePost svc none = HandlePost svc2 none)
    ∧ HandleError .invalidInput = (400, ⟨"invalid_input", "Invalid input provided"⟩)
    ∧ (HandleError .invalidInput).1 ≠ 500 :=
  ⟨rfl, fun _ => rfl, rfl, by decide⟩

/-- C3: `ValidatePagination` passes the offset through unchanged; when the
limit was not provided the result limit is 10; when it was provided the
result limit is `clamp limit 1 100` — below 1 becomes 1, above 100 becomes
100, and values already in [1,100] pass through unchanged. -/
theorem validate_pagination_clamps
    (offset limit : Int) (limitProvided : Bool) :
    (ValidatePagination offset limit limitProvided).offset = offset
    ∧ (limitProvided = false → (ValidatePagination offset limit limitProvided).limit = 10)
    ∧ (limitProvided = true →
        (ValidatePagination offset limit limitProvided).limit = clamp limit 1 100)
    ∧ (limitProvided = true → limit < 1 →
        (ValidatePagination offset limit limitProvided).limit = 1)
    ∧ (limitProvided = true → limit > 100 →
        (ValidatePagination offset limit limitProvided).limit = 100)
    ∧ (limitProvided = true → 1 ≤ limit → limit ≤ 100 →
        (ValidatePagination offset limit limitProvided).limit = limit) := by
  refine ⟨?_, ?_, ?_, ?_, ?_, ?_⟩
  · cases limitProvided
    · rfl
    · rfl
  · intro h
    subst h
    rfl
  · intro h
    subst h
    rfl
  · intro h hlt
    subst h
    simp only [ValidatePagination, clamp, ite_true]
    split_ifs
    all_goals omega
  · intro h hgt
    subst h
    simp only [ValidatePagination, clamp, ite_true]
    split_ifs
    all_goals omega
  · intro h h1 h100
    subst h
    simp only [ValidatePagination, clamp, ite_true]
    split_ifs
    all_goals omega

/-- Witness for C3 at concrete inputs: provided limit 0 clamps to 1,
provided limit 200 clamps to 100, provided limit 50 passes through,
omitted limit defaults to 10, and the offset always passes through. -/
theorem validate_pagination_clamps_holds_at_inputs :
    (ValidatePagination 5 0 true).limit = 1
    ∧ (ValidatePagination 5 200 true).limit = 100
    ∧ (ValidatePagination 5 50 true).limit = 50
    ∧ (ValidatePagination 5 7 false).limit = 10
    ∧ (ValidatePagination 5 0 true).offset = 5 :=
  ⟨(validate_pagination_clamps 5 0 true).2.2.2.1 rfl (by decide),
   (validate_pagination_clamps 5 200 true).2.2.2.2.1 rfl (by decide),
   (validate_pagination_clamps 5 50 true).2.2.2.2.2 rfl (by decide) (by decide),
   (validate_pagination_clamps 5 7 false).2.1 rfl,
   (validate_pagination_clamps 5 0 true).1⟩

/-- The detail DTO has one variant entry per source variant. -/
theorem detail_variants_length (p : Product) :
    (mapProductToDetailDTO p).variants.length = p.variants.length := by
  simp [mapProductToDetailDTO]

/-- C1: in the detail DTO produced by `mapProductToDetailDTO` (and hence
by `GetProductByCode`), the i-th variant's effective price equals the
variant's own price whenever that price is present — including an explicit
0 — and equals the owning product's price whenever it is absent (`none`).
Absence is the `none` case of the option, never the numeric value 0. -/
theorem variant_effective_price_inheritance (p : Product) (i : Nat)
    (h : i < p.variants.length)
    (h2 : i < (mapProductToDetailDTO p).variants.length) :
    ((p.variants.get ⟨i, h⟩).price = none →
      ((mapProductToDetailDTO p).variants.get ⟨i, h2⟩).price = p.price)
    ∧ ∀ q : ℚ, (p.variants.get ⟨i, h⟩).price = some q →
      ((mapProductToDetailDTO p).variants.get ⟨i, h2⟩).price = q := by
  constructor
  · intro hnone
    simp only [List.get_eq_getElem] at hnone
    simp [mapProductToDetailDTO, hnone]
  · intro q hq
    simp only [List.get_eq_getElem] at hq
    simp [mapProductToDetailDTO, hq]

/-- Concrete product exercising both sides of the price-inheritance rule:
one variant with an explicit price of 0, one with no price of its own. -/
def sampleProduct : Product :=
  { id := 1
    code := "PROD001"
    price := 7
    category := none
    variants :=
      [ { id := 1, productId := 1, name := "Zero", sku := "SKU-0", price := some 0 }
      , { id := 2, productId := 1, name := "Inherit", sku := "SKU-I", price := none } ] }

/-- Witness for C1: on `sampleProduct` the variant with explicit price 0
gets effective price 0 (not the product price 7), and the variant with no
price of its own gets the product price 7. -/
theorem variant_effective_price_inheritance_holds_at_inputs :
    ((mapProductToDetailDTO sampleProduct).variants.get ⟨0, by decide⟩).price = 0
    ∧ ((mapProductToDetailDTO sampleProduct).variants.get ⟨1, by decide⟩).price = 7 :=
  ⟨(variant_effective_price_inheritance sampleProduct 0 (by decide) (by decide)).2 0 rfl,
   (variant_effective_price_inheritance sampleProduct 1 (by decide) (by decide)).1 rfl⟩

/-- C4: `GetProductByCode` on the empty code returns `ErrInvalidInput`
whatever the repository does (the repository is not consulted); on a
non-empty code, a repository `gorm.ErrRecordNotFound` becomes
`ErrNotFound`, and any other repository error is propagated as-is — in
particular it is never converted into `ErrNotFound`.  The final conjunct
records that the three outcomes stay distinguishable at the HTTP layer:
400, 404 and 500. -/
theorem get_product_by_code_error_semantics
    (repo : String → Except GoError Product) (code : String) :
    GetProductByCode repo "" = .error .invalidInput
    ∧ (code ≠ "" → repo code = .error .gormRecordNotFound →
        GetProductByCode repo code = .error .notFound)
    ∧ (∀ e : GoError, code ≠ "" → repo code = .error e → e ≠ .gormRecordNotFound →
        GetProductByCode repo code = .error e)
    ∧ (HandleError .invalidInput).1 = 400
    ∧ (HandleError .notFound).1 = 404
    ∧ (∀ msg : String, (HandleError (.other msg)).1 = 500) := by
  refine ⟨rfl, ?_, ?_, rfl, rfl, fun _ => rfl⟩
  · intro hne hrepo
    simp [GetProductByCode, hne, hrepo]
  · intro e hne hrepo hnotgorm
    simp [GetProductByCode, hne, hrepo, hnotgorm]

/-- Repository double for the C4 witness: code "A" is absent from the
store (raw record-not-found), every other code fails with a generic
database error. -/
def repoStub : String → Except GoError Product :=
  fun c => if c = "A" then .error .gormRecordNotFound else .error (.other "db down")

/-- Witness for C4: on `repoStub`, the empty code gives `ErrInvalidInput`,
the absent code "A" gives `ErrNotFound`, and the failing code "B"
propagates the generic error unchanged. -/
theorem get_product_by_code_error_semantics_holds_at_inputs :
    GetProductByCode repoStub "" = .error .invalidInput
    ∧ GetProductByCode repoStub "A" = .error .notFound
    ∧ GetProductByCode repoStub "B" = .error (.other "db down") :=
  ⟨(get_product_by_code_error_semantics repoStub "A").1,
   (get_product_by_code_error_semantics repoStub "A").2.1 (by decide) rfl,
   (get_product_by_code_error_semantics repoStub "B").2.2.1
     (.other "db down") (by decide) rfl (by decide)⟩

/-- C5: the total produced by the listing pipeline equals the number of
products matching the (conjunctive category-and-price) filter on the
filtered but not paginated set, so it is independent of offset and limit,
and `ListProducts` passes the repository total through unchanged. -/
theorem list_products_total_counts_filtered
    (db : List Product) (params : PaginationParams) (filter : FilterParams) :
    (ListProducts db params filter).total
      = ((db.filter (matchesFilter ⟨filter.category, filter.priceLessThan⟩)).length : Int)
    ∧ (ListProducts db params filter).total
      = (GetAllProducts db params.offset params.limit
          ⟨filter.category, filter.priceLessThan⟩).2
    ∧ ∀ params2 : PaginationParams,
        (ListProducts db params filter).total = (ListProducts db params2 filter).total :=
  ⟨rfl, rfl, fun _ => rfl⟩

/-- C6: `CreateCategory` rejects an empty code or an empty name with
`ErrInvalidCategoryInput` (exact empty-string test, no trimming); with
both non-empty it calls the store and returns a `CategoryDTO` carrying
exactly the created category's code and name, and a store failure is
propagated unchanged. -/
theorem create_category_validates_emptiness
    (repo : String → String → Except GoError Category) (code name : String) :
    (code = "" ∨ name = "" →
      CreateCategory repo ⟨code, name⟩ = .error .invalidCategoryInput)
    ∧ (code ≠ "" → name ≠ "" → ∀ c : Category, repo code name = .ok c →
        CreateCategory repo ⟨code, name⟩ = .ok ⟨c.code, c.name⟩)
    ∧ (code ≠ "" → name ≠ "" → ∀ e : GoError, repo code name = .error e →
        CreateCategory repo ⟨code, name⟩ = .error e) := by
  refine ⟨?_, ?_, ?_⟩
  · intro hempty
    rcases hempty with h | h <;> simp [CreateCategory, h]
  · intro hc hn c hrepo
    simp [CreateCategory, hc, hn, hrepo]
  · intro hc hn e hrepo
    simp [CreateCategory, hc, hn, hrepo]

/-- Store double for the C6 witness: creation always succeeds and echoes
the submitted code and name. -/
def categoryRepoStub : String → String → Except GoError Category :=
  fun c n => .ok ⟨1, c, n⟩

/-- Witness for C6: the three empty combinations are rejected, and a
whitespace-only code (non-empty, untrimmed) reaches the store and comes
back as the created DTO. -/
theorem create_category_validates_emptiness_holds_at_inputs :
    CreateCategory categoryRepoStub ⟨"", "X"⟩ = .error .invalidCategoryInput
    ∧ CreateCategory categoryRepoStub ⟨"X", ""⟩ = .error .invalidCategoryInput
    ∧ CreateCategory categoryRepoStub ⟨"", ""⟩ = .error .invalidCategoryInput
    ∧ CreateCategory categoryRepoStub ⟨" ", "Y"⟩ = .ok ⟨" ", "Y"⟩ :=
  ⟨(create_category_validates_emptiness categoryRepoStub "" "X").1 (Or.inl rfl),
   (create_category_validates_emptiness categoryRepoStub "X" "").1 (Or.inr rfl),
   (create_category_validates_emptiness categoryRepoStub "" "").1 (Or.inl rfl),
   (create_category_validates_emptiness categoryRepoStub " " "Y").2.1
     (by decide) (by decide) ⟨1, " ", "Y"⟩ rfl⟩

/-- C7: the `priceLessThan` validation — the empty string yields no
filter; a string `decimal.NewFromString` cannot parse yields
`ErrInvalidPrice`; a string parsing to a negative decimal yields
`ErrNegativePrice`; a string parsing to a non-negative decimal yields
exactly that parsed decimal as the filter value. -/
theorem validate_price_filter_semantics (raw : String) :
    (raw = "" → validatePriceFilter raw = .ok none)
    ∧ (raw ≠ "" → NewFromString raw = none →
        validatePriceFilter raw = .error .invalidPrice)
    ∧ (∀ d : ℚ, raw ≠ "" → NewFromString raw = some d → d < 0 →
        validatePriceFilter raw = .error .negativePrice)
    ∧ (∀ d : ℚ, raw ≠ "" → NewFromString raw = some d → 0 ≤ d →
        validatePriceFilter raw = .ok (some d)) := by
  refine ⟨?_, ?_, ?_, ?_⟩
  · intro h
    simp [validatePriceFilter, h]
  · intro hne hparse
    simp [validatePriceFilter, hne, hparse]
  · intro d hne hparse hneg
    simp [validatePriceFilter, hne, hparse, hneg]
  · intro d hne hparse hnonneg
    simp [validatePriceFilter, hne, hparse, not_lt.mpr hnonneg]

/-- Witness for C7: empty input means no filter, "abc" is an invalid
decimal, "-3" is negative, and "2.50" parses to exactly 5/2. -/
theorem validate_price_filter_semantics_holds_at_inputs :
    validatePriceFilter "" = .ok none
    ∧ validatePriceFilter "abc" = .error .invalidPrice
    ∧ validatePriceFilter "-3" = .error .negativePrice
    ∧ validatePriceFilter "2.50" = .ok (some (5 / 2)) :=
  ⟨(validate_price_filter_semantics "").1 rfl,
   (validate_price_filter_semantics "abc").2.1 (by decide) (by decide),
   (validate_price_filter_semantics "-3").2.2.1 (-3) (by decide)
     (by simp +decide [NewFromString, splitExp, dotNormalize, splitAtDot,
       setStringInt, parseDigits, parseDigitsAux])
     (by decide),
   (validate_price_filter_semantics "2.50").2.2.2 (5 / 2) (by decide)
     (by
       simp +decide [NewFromString, splitExp, dotNormalize, splitAtDot,
         setStringInt, parseDigits, parseDigitsAux]
       norm_num)
     (div_nonneg (by decide) (by decide))⟩

/-- C8: the offset validation — the empty string yields offset 0; a
string `strconv.Atoi` cannot parse as an integer yields
`ErrInvalidOffset`; a string parsing to a negative integer yields
`ErrInvalidOffset`; a string parsing to a non-negative integer yields
exactly that integer. -/
theorem validate_offset_semantics (raw : String) :
    (raw = "" → validateOffset raw = .ok 0)
    ∧ (raw ≠ "" → Atoi raw = none → validateOffset raw = .error .invalidOffset)
    ∧ (∀ v : Int, raw ≠ "" → Atoi raw = some v → v < 0 →
        validateOffset raw = .error .invalidOffset)
    ∧ (∀ v : Int, raw ≠ "" → Atoi raw = some v → 0 ≤ v →
        validateOffset raw = .ok v) := by
  refine ⟨?_, ?_, ?_, ?_⟩
  · intro h
    simp [validateOffset, parseQueryIntWithValidation, h]
  · intro hne hparse
    simp [validateOffset, parseQueryIntWithValidation, hne, hparse]
  · intro v hne hparse hneg
    simp [validateOffset, parseQueryIntWithValidation, hne, hparse, hneg]
  · intro v hne hparse hnonneg
    simp [validateOffset, parseQueryIntWithValidation, hne, hparse, not_lt.mpr hnonneg]

/-- Witness for C8: empty input defaults to 0, "abc" and "12abc" fail to
parse, "-5" parses negative and is rejected, "42" is returned as 42. -/
theorem validate_offset_semantics_holds_at_inputs :
    validateOffset "" = .ok 0
    ∧ validateOffset "abc" = .error .invalidOffset
    ∧ validateOffset "12abc" = .error .invalidOffset
    ∧ validateOffset "-5" = .error .invalidOffset
    ∧ validateOffset "42" = .ok 42 :=
  ⟨(validate_offset_semantics "").1 rfl,
   (validate_offset_semantics "abc").2.1 (by decide) (by decide),
   (validate_offset_semantics "12abc").2.1 (by decide) (by decide),
   (validate_offset_semantics "-5").2.2.1 (-5) (by decide) (by decide) (by decide),
   (validate_offset_semantics "42").2.2.2 42 (by decide) (by decide) (by decide)⟩

end GoCatalog
